import Mathlib

set_option maxRecDepth 8192

/-!
# Verification of the Smart Career Guidance Agent pipeline

Shallow embedding of `src/agent_orchestrator.py`: the simulated market-data
lookup tool, the pydantic `UserProfile` schema and its validation behaviour,
the crew configuration, and the top-level script's error handling.
Parts of the pipeline that live outside the repository's code (the LLM-driven
gap computation and the crewai sequential scheduler) are modelled from the
spec, and are marked as such in their doc comments.
-/

/-- Boolean test that `pat` is a prefix of `l` (character lists). -/
def hasPrefixChars : List Char → List Char → Bool
  | [], _ => true
  | _ :: _, [] => false
  | a :: as, b :: bs => a == b && hasPrefixChars as bs

/-- Boolean substring occurrence test on character lists: does `pat` occur
contiguously inside `l`?  Mirrors Python's `pat in s` for nonempty `pat`. -/
def hasSubChars (pat : List Char) : List Char → Bool
  | [] => hasPrefixChars pat []
  | c :: rest => hasPrefixChars pat (c :: rest) || hasSubChars pat rest

/-- String-level case-sensitive substring test, the embedding of Python's
`needle in haystack` operator on `str`. -/
def strContains (haystack needle : String) : Bool :=
  hasSubChars needle.toList haystack.toList

/-- The canned market-data answer for roles containing "Data Analyst"
(source lines 40-45, Python adjacent string literals concatenated). -/
def daMarketString : String :=
  "Market Data: The primary mandatory skills for a Junior Data Analyst are: Advanced SQL, Tableau Visualization, and Python (Pandas/NumPy). Secondary skills include basic cloud proficiency (AWS/Azure). Typical salary range in major US metro areas is $75,000 - $95,000."

/-- The canned market-data answer for roles containing "Software Engineer"
(source lines 47-51). -/
def seMarketString : String :=
  "Market Data: Mandatory skills for a Mid-Level Software Engineer are: Expertise in Python/GoLang, proficiency in Docker/Kubernetes, and AWS/GCP services. Typical salary range is $120,000 - $160,000."

/-- The generic fallback answer for all other roles (source line 53). -/
def genericMarketString : String :=
  "Market Data: No specific data found. General requirements: excellent communication, problem-solving, and continuous learning."

/-- Embedding of `google_search_market_data` (source lines 31-53): a pure
function of the role text.  The Python body only branches on case-sensitive
substring membership and returns one of three fixed strings; the `print` on
line 36 does not affect the returned value. -/
def google_search_market_data (target_role : String) : String :=
  if strContains target_role "Data Analyst" then daMarketString
  else if strContains target_role "Software Engineer" then seMarketString
  else genericMarketString

/-- Whitespace characters recognised by Python's `int(str)` stripping
(the forms that matter for this model). -/
def isWsChar (c : Char) : Bool :=
  c == ' ' || c == '\t' || c == '\n' || c == '\r'

/-- Strip leading and trailing whitespace from a character list. -/
def trimChars (l : List Char) : List Char :=
  ((l.dropWhile isWsChar).reverse.dropWhile isWsChar).reverse

/-- Value of a decimal digit character, `none` for non-digits. -/
def digitVal (c : Char) : Option Nat :=
  if 48 ≤ c.toNat && c.toNat ≤ 57 then some (c.toNat - 48) else none

/-- Accumulate a decimal number; fails on the first non-digit. -/
def readDigitsAux : List Char → Nat → Option Nat
  | [], acc => some acc
  | c :: cs, acc =>
    match digitVal c with
    | some d => readDigitsAux cs (acc * 10 + d)
    | none => none

/-- Read a nonempty all-digit character list as a `Nat`. -/
def readDigits : List Char → Option Nat
  | [] => none
  | c :: cs => readDigitsAux (c :: cs) 0

/-- Parse an optionally signed decimal integer from characters
(`none` when empty or containing a non-digit after the sign). -/
def parseIntChars : List Char → Option Int
  | [] => none
  | c :: cs =>
    if c == '-' then (readDigits cs).map (fun n => -(n : Int))
    else if c == '+' then (readDigits cs).map (fun n => (n : Int))
    else (readDigits (c :: cs)).map (fun n => (n : Int))

/-- Embedding of pydantic's lax string-to-int coercion used for the
`years_of_experience: int` field (Python `int(str)` semantics: strip
whitespace, optional sign, decimal digits; anything else fails). -/
def parsePydanticInt (s : String) : Option Int :=
  parseIntChars (trimChars s.toList)

/-- Embedding of the `UserProfile` pydantic schema (source lines 14-18):
three fields, `current_skills: str`, `target_role: str`,
`years_of_experience: int`.  The schema imposes no further constraint:
strings may be empty and the integer may be negative. -/
structure UserProfile where
  current_skills : String
  target_role : String
  years_of_experience : Int
deriving DecidableEq, Repr

/-- The validation failure pydantic raises when a field's value cannot be
coerced to the declared type. -/
inductive ValidationError where
  | intParsing (input : String)
deriving DecidableEq, Repr

/-- Embedding of constructing a `UserProfile` from raw textual field values,
as pydantic validates the profiler's JSON output: the two `str` fields are
stored verbatim (any string is accepted), and `years_of_experience` goes
through the int coercion, the only way validation can fail. -/
def UserProfile.validate (current_skills target_role years_raw : String) :
    Except ValidationError UserProfile :=
  match parsePydanticInt years_raw with
  | none => .error (.intParsing years_raw)
  | some y => .ok ⟨current_skills, target_role, y⟩

example : UserProfile.validate "Python" "Dev" "-3" =
    .ok ⟨"Python", "Dev", -3⟩ := by rfl
example : UserProfile.validate "Python" "Dev" "two" =
    .error (.intParsing "two") := by rfl
example : UserProfile.validate "Python" "Dev" " 2 " =
    .ok ⟨"Python", "Dev", 2⟩ := by rfl

/-- Lower-case an ASCII letter, identity otherwise (Python `str.lower`
restricted to ASCII, which covers every string in this development). -/
def lowerChar (c : Char) : Char :=
  if 65 ≤ c.toNat && c.toNat ≤ 90 then Char.ofNat (c.toNat + 32) else c

/-- Lower-case a string character by character. -/
def lowerStr (s : String) : String :=
  ⟨s.toList.map lowerChar⟩

/-- Split a character list at commas. -/
def splitCommaAux : List Char → List Char → List (List Char)
  | [], acc => [acc.reverse]
  | c :: cs, acc =>
    if c == ',' then acc.reverse :: splitCommaAux cs []
    else splitCommaAux cs (c :: acc)

/-- Split a string at commas into trimmed, lower-cased tokens. -/
def skillTokens (s : String) : List String :=
  (splitCommaAux s.toList []).map (fun cs => ⟨(trimChars cs).map lowerChar⟩)

/-- Modelled from the spec: the structured `MarketSnapshot` record of the
Market Data Lookup contract (spec §4.2) — `required_skills` with a parallel
`mandatory_flags` sequence and a `salary_range` text.  The repository's code
has no such record: its lookup returns a single prose string interpreted by
an LLM. -/
structure MarketSnapshot where
  required_skills : List String
  mandatory_flags : List Bool
  salary_range : String
deriving DecidableEq, Repr

/-- Modelled from the spec: the structured lookup result for the end-to-end
scenario of spec §8 — for a "Data Analyst" role the snapshot is
required=["SQL","Tableau","Python"], mandatory=[true,true,false], with the
salary range taken from the code's prose string; other roles fall back to
the generic requirement set of §4.2 (no salary data). -/
def lookupSnapshot (role : String) : MarketSnapshot :=
  if strContains role "Data Analyst" then
    ⟨["SQL", "Tableau", "Python"], [true, true, false], "$75,000 - $95,000"⟩
  else if strContains role "Software Engineer" then
    ⟨["Python", "Docker", "AWS"], [true, true, true], "$120,000 - $160,000"⟩
  else
    ⟨["communication", "problem-solving", "continuous learning"],
      [false, false, false], ""⟩

/-- Modelled from the spec: the Market Analyzer's gap computation (§4.2) —
the set difference between the snapshot's required skills and the user's
declared skills (case-insensitive substring match per skill token),
mandatory skills first in snapshot order, truncated to at most 3 items.
In the repository this computation is performed by the analyst LLM, not by
code. -/
def criticalSkillGap (snap : MarketSnapshot) (current_skills : String) :
    List String :=
  let toks := skillTokens current_skills
  let declared := fun (skill : String) =>
    toks.any (fun t => strContains t (lowerStr skill))
  let paired := snap.required_skills.zip snap.mandatory_flags
  let missing := paired.filter (fun p => !(declared p.1))
  let mand := (missing.filter (fun p => p.2)).map (fun p => p.1)
  let opt := (missing.filter (fun p => !p.2)).map (fun p => p.1)
  (mand ++ opt).take 3

example : criticalSkillGap (lookupSnapshot "Junior Data Analyst") "Python, Excel" =
    ["SQL", "Tableau"] := by rfl

/-- The crewai process kinds used by the source (only `sequential` appears). -/
inductive ProcessKind where
  | sequential
deriving DecidableEq, Repr

/-- Embedding of the `Crew` configuration relevant to control flow: the
declared agent roles, the task list in declared order, and the process kind. -/
structure CrewConfig where
  agents : List String
  tasks : List String
  process : ProcessKind
deriving DecidableEq, Repr

/-- Embedding of `career_crew` (source lines 161-166): three agents, three
tasks in the order profiler, analyst, strategist, `Process.sequential`. -/
def career_crew : CrewConfig :=
  { agents := ["Career Profiler", "Real-Time Market Analyst", "Career Strategy Coach"],
    tasks := ["task_profiler", "task_analyst", "task_strategist"],
    process := .sequential }

/-- One event of a pipeline execution trace: a stage starting on an input or
finishing with an output. -/
inductive StageEvent (α : Type) where
  | started (idx : Nat) (input : α)
  | finished (idx : Nat) (output : α)
deriving DecidableEq, Repr

/-- Modelled from the spec: crewai's sequential kickoff (§2, §5) — stages run
one after another, each consuming the previous stage's output; the trace
records every start and finish in order.  The scheduler itself lives in the
external framework, not in the repository. -/
def kickoffTraceAux (i : Nat) : List (α → α) → α → List (StageEvent α) × α
  | [], x => ([], x)
  | f :: rest, x =>
    let out := f x
    let res := kickoffTraceAux (i + 1) rest out
    (.started i x :: .finished i out :: res.1, res.2)

/-- Run a list of stages sequentially from an input, returning the full
event trace and the final output. -/
def kickoffTrace (stages : List (α → α)) (x : α) : List (StageEvent α) × α :=
  kickoffTraceAux 0 stages x

/-- The error a crew kickoff can surface to the top-level script: the
dedicated `APIError` branch or any other exception (source lines 181-188). -/
inductive RunError where
  | apiError (details : String)
  | other (details : String)
deriving DecidableEq, Repr

/-- The observable outcome of the process: the lines printed to standard
output and the process exit code. -/
structure ProcOutcome where
  output : List String
  exitCode : Nat
deriving DecidableEq, Repr

/-- The `"="*80` banner printed around the final report. -/
def bannerLine : String := String.mk (List.replicate 80 (Char.ofNat 61))

/-- Embedding of the top-level script (source lines 169-188) as a function of
the kickoff's result.  On success it prints the report between banners; on
either exception it prints a diagnostic block.  No branch calls `sys.exit`,
so the Python interpreter terminates normally with exit code 0 in every
case. -/
def mainScript (kickoffResult : Except RunError String) : ProcOutcome :=
  let start := "--- Starting the Autonomous Career Guidance Agent ---"
  match kickoffResult with
  | .ok report =>
    ⟨[start, bannerLine, "FINAL CAREER ROADMAP REPORT GENERATED:", bannerLine,
      report, bannerLine], 0⟩
  | .error (.apiError d) =>
    ⟨[start, bannerLine, "FATAL ERROR: Gemini API Key Issue.",
      "Please ensure your GEMINI_API_KEY is correctly set in your .env file.",
      "Details: " ++ d, bannerLine], 0⟩
  | .error (.other d) =>
    ⟨[start, "An unexpected error occurred: " ++ d], 0⟩

/-! ## Helper lemmas -/

theorem hasPrefixChars_iff (p l : List Char) :
    hasPrefixChars p l = true ↔ p <+: l := by
  induction p generalizing l with
  | nil => simp [hasPrefixChars]
  | cons a as ih =>
    cases l with
    | nil => simp [hasPrefixChars]
    | cons b bs =>
      simp [hasPrefixChars, List.cons_prefix_cons, ih, and_comm]

theorem string_append_ne (p t d : String)
    (h : hasPrefixChars p.toList t.toList = false) : p ++ d ≠ t := by
  intro he
  have hd : p.data ++ d.data = t.data := by
    have h2 := congrArg String.data he
    rwa [String.data_append] at h2
  have hpre : p.data <+: t.data := ⟨d.data, hd⟩
  have htrue := (hasPrefixChars_iff p.data t.data).2 hpre
  rw [show p.toList = p.data from rfl, show t.toList = t.data from rfl, htrue] at h
  cases h

/-! ## Claim theorems -/

/-- C1: for the role "Junior Data Analyst" the (spec-modelled) structured
lookup returns required skills SQL, Tableau, Python with mandatory flags
[true, true, false], and the (spec-modelled) gap computation against
declared skills "Python, Excel" yields exactly ["SQL", "Tableau"]; the
code's actual lookup string for that role indeed mentions all three
skills. -/
theorem c1_end_to_end_scenario :
    lookupSnapshot "Junior Data Analyst" =
      ⟨["SQL", "Tableau", "Python"], [true, true, false], "$75,000 - $95,000"⟩ ∧
    criticalSkillGap (lookupSnapshot "Junior Data Analyst") "Python, Excel" =
      ["SQL", "Tableau"] ∧
    strContains (google_search_market_data "Junior Data Analyst") "SQL" = true ∧
    strContains (google_search_market_data "Junior Data Analyst") "Tableau" = true ∧
    strContains (google_search_market_data "Junior Data Analyst") "Python" = true := by
  exact ⟨by decide, by decide, by decide, by decide, by decide⟩

/-- C2: any role matching neither "Data Analyst" nor "Software Engineer"
gets the generic requirement set (communication, problem-solving,
continuous learning); the embedded lookup is a total function, so it never
fails. -/
theorem c2_generic_fallback (role : String)
    (hda : strContains role "Data Analyst" = false)
    (hse : strContains role "Software Engineer" = false) :
    google_search_market_data role = genericMarketString := by
  simp [google_search_market_data, hda, hse]

theorem c2_generic_fallback_witness :
    strContains "Chef" "Data Analyst" = false ∧
    strContains "Chef" "Software Engineer" = false ∧
    google_search_market_data "Chef" = genericMarketString :=
  ⟨by decide, by decide, c2_generic_fallback "Chef" (by decide) (by decide)⟩

/-- C3 counterexample: the claim says every role yields a structured record
with a salary-range component, but the code's lookup for "Chef" returns the
single generic prose string, which contains no salary text at all. -/
theorem c3_counterexample :
    google_search_market_data "Chef" = genericMarketString ∧
    strContains (google_search_market_data "Chef") "salary" = false := by
  exact ⟨by decide, by decide⟩

/-- C3 amended: the lookup returns a single prose text — always one of
three fixed strings; the two role-specific answers contain a salary-range
text, while the generic fallback contains none (and no structured
components). -/
theorem c3_lookup_is_prose (role : String) :
    (google_search_market_data role = daMarketString ∨
     google_search_market_data role = seMarketString ∨
     google_search_market_data role = genericMarketString) ∧
    strContains daMarketString "Typical salary range" = true ∧
    strContains seMarketString "Typical salary range" = true ∧
    strContains genericMarketString "salary" = false := by
  refine ⟨?_, by decide, by decide, by decide⟩
  unfold google_search_market_data
  by_cases h1 : strContains role "Data Analyst"
  · simp [h1]
  · by_cases h2 : strContains role "Software Engineer" <;> simp [h1, h2]

/-- C4: the lookup is deterministic in its role argument — equal roles give
equal results (the embedded tool is a pure function of the role text). -/
theorem c4_deterministic (r₁ r₂ : String) (h : r₁ = r₂) :
    google_search_market_data r₁ = google_search_market_data r₂ := by
  rw [h]

theorem c4_deterministic_witness :
    ("Junior Data Analyst" : String) = "Junior Data Analyst" ∧
    google_search_market_data "Junior Data Analyst" =
      google_search_market_data "Junior Data Analyst" :=
  ⟨rfl, c4_deterministic "Junior Data Analyst" "Junior Data Analyst" rfl⟩

/-- C5 counterexample: the pydantic schema constrains
`years_of_experience` only to be an `int`, so validation at years "-3"
succeeds and produces a `UserProfile` with negative years, contradicting
the claim that negative years always yield `ValidationError`. -/
theorem c5_counterexample :
    UserProfile.validate "Python, Excel" "Junior Data Analyst" "-3" =
      .ok ⟨"Python, Excel", "Junior Data Analyst", -3⟩ ∧
    (-3 : Int) < 0 :=
  ⟨by rfl, by decide⟩

/-- C5 amended: non-numeric years always yield a `ValidationError`, but
negative integer years are accepted — the schema declares a plain `int`
with no non-negativity constraint. -/
theorem c5_years_validation (s r y : String) :
    (parsePydanticInt y = none →
      UserProfile.validate s r y = .error (.intParsing y)) ∧
    UserProfile.validate s r "-3" = .ok ⟨s, r, -3⟩ := by
  constructor
  · intro h
    simp [UserProfile.validate, h]
  · rfl

theorem c5_years_validation_witness :
    parsePydanticInt "two" = none ∧
    UserProfile.validate "Python" "Dev" "two" = .error (.intParsing "two") :=
  ⟨by rfl, (c5_years_validation "Python" "Dev" "two").1 (by rfl)⟩

/-- C6 counterexample: the schema accepts an empty `target_role`, so a
`UserProfile` whose role is empty after trimming is successfully
constructed, contradicting the claim that such inputs are rejected. -/
theorem c6_counterexample :
    UserProfile.validate "Python" "" "2" = .ok ⟨"Python", "", 2⟩ ∧
    trimChars ("" : String).toList = [] :=
  ⟨by rfl, by rfl⟩

/-- C6 amended: the schema performs no emptiness check on `target_role`;
every successfully constructed `UserProfile` merely stores the input role
verbatim, with no non-emptiness guarantee. -/
theorem c6_role_stored_verbatim (s r y : String) (p : UserProfile)
    (h : UserProfile.validate s r y = .ok p) :
    p.target_role = r := by
  unfold UserProfile.validate at h
  cases hy : parsePydanticInt y with
  | none => rw [hy] at h; cases h
  | some n =>
    rw [hy] at h
    cases h
    rfl

theorem c6_role_stored_verbatim_witness :
    UserProfile.validate "Python" "   " "2" = .ok ⟨"Python", "   ", 2⟩ ∧
    (⟨"Python", "   ", 2⟩ : UserProfile).target_role = "   " :=
  ⟨by rfl,
   c6_role_stored_verbatim "Python" "   " "2" ⟨"Python", "   ", 2⟩ (by rfl)⟩

/-- C7: for valid inputs (any skills text, role non-empty after trimming,
years parsing to a non-negative integer) validation succeeds and returns a
`UserProfile` holding exactly the input values. -/
theorem c7_round_trip (s r y : String) (n : Int)
    (_hrole : trimChars r.toList ≠ [])
    (hy : parsePydanticInt y = some n) (_hn : 0 ≤ n) :
    UserProfile.validate s r y = .ok ⟨s, r, n⟩ := by
  simp [UserProfile.validate, hy]

theorem c7_round_trip_witness :
    trimChars ("Junior Data Analyst" : String).toList ≠ [] ∧
    parsePydanticInt "2" = some 2 ∧
    (0 : Int) ≤ 2 ∧
    UserProfile.validate "Python, Excel" "Junior Data Analyst" "2" =
      .ok ⟨"Python, Excel", "Junior Data Analyst", 2⟩ :=
  ⟨by decide, by rfl, by decide,
   c7_round_trip "Python, Excel" "Junior Data Analyst" "2" 2
     (by decide) (by rfl) (by decide)⟩

/-- C8 counterexample: when the kickoff raises (e.g. a validation failure
surfacing as a generic exception), the top-level handler prints a
diagnostic but the process exits with code 0 — the exception is caught and
nothing calls for a non-zero exit — contradicting the claim of a non-zero
exit code. -/
theorem c8_counterexample :
    (mainScript (.error (.other "ValidationError: years_of_experience"))).exitCode
      = 0 ∧
    (mainScript (.error (.other "ValidationError: years_of_experience"))).output =
      ["--- Starting the Autonomous Career Guidance Agent ---",
       "An unexpected error occurred: ValidationError: years_of_experience"] :=
  ⟨by rfl, by rfl⟩

/-- C8 amended: on any failure the process prints a diagnostic message and
exits with code 0 (the exception is swallowed by the top-level handler; no
non-zero exit occurs), and no report output is printed — the report banner
never appears among the printed lines. -/
theorem c8_failure_behaviour (e : RunError) :
    (mainScript (.error e)).exitCode = 0 ∧
    (∃ d, ("Details: " ++ d) ∈ (mainScript (.error e)).output ∨
      ("An unexpected error occurred: " ++ d) ∈ (mainScript (.error e)).output) ∧
    "FINAL CAREER ROADMAP REPORT GENERATED:" ∉ (mainScript (.error e)).output := by
  cases e with
  | apiError d =>
    refine ⟨rfl, ⟨d, Or.inl (by simp [mainScript])⟩, ?_⟩
    simp only [mainScript, List.mem_cons, List.not_mem_nil, or_false]
    push_neg
    refine ⟨by decide, by decide, by decide, by decide, ?_, by decide⟩
    exact fun h => string_append_ne "Details: "
      "FINAL CAREER ROADMAP REPORT GENERATED:" d (by decide) h.symm
  | other d =>
    refine ⟨rfl, ⟨d, Or.inr (by simp [mainScript])⟩, ?_⟩
    simp only [mainScript, List.mem_cons, List.not_mem_nil, or_false]
    push_neg
    refine ⟨by decide, ?_⟩
    exact fun h => string_append_ne "An unexpected error occurred: "
      "FINAL CAREER ROADMAP REPORT GENERATED:" d (by decide) h.symm

/-- C9: the crew is configured with the three tasks in the order profiler,
analyst, strategist under `Process.sequential`, and under the (spec-modelled)
sequential kickoff semantics the execution trace runs the stages strictly in
that order, each stage starting exactly on the previous stage's output, with
no branching or interleaving. -/
theorem c9_sequential_pipeline {α : Type} (f g h : α → α) (x : α) :
    career_crew.process = .sequential ∧
    career_crew.tasks = ["task_profiler", "task_analyst", "task_strategist"] ∧
    kickoffTrace [f, g, h] x =
      ([.started 0 x, .finished 0 (f x),
        .started 1 (f x), .finished 1 (g (f x)),
        .started 2 (g (f x)), .finished 2 (h (g (f x)))],
       h (g (f x))) :=
  ⟨rfl, rfl, rfl⟩

/-- C10: the lookup's branching is a case-sensitive substring test in fixed
order — any role containing "Data Analyst" gets the Data Analyst answer
(even one also containing "Software Engineer"), while "junior data analyst"
(different letter case) falls through to the generic branch. -/
theorem c10_branch_order (role : String) :
    (strContains role "Data Analyst" = true →
      google_search_market_data role = daMarketString) ∧
    google_search_market_data "Data Analyst / Software Engineer" =
      daMarketString ∧
    google_search_market_data "junior data analyst" = genericMarketString := by
  refine ⟨fun h => by simp [google_search_market_data, h], by decide, by decide⟩

theorem c10_branch_order_witness :
    strContains "Senior Data Analyst" "Data Analyst" = true ∧
    google_search_market_data "Senior Data Analyst" = daMarketString :=
  ⟨by decide, (c10_branch_order "Senior Data Analyst").1 (by decide)⟩
